import Mathlib

/-!
Shallow embedding of an OEP-4 fungible-token contract (src/src/lib.rs).

The contract state is the backing key-value store: keys are byte strings
(lists of byte values), values are unsigned 128-bit integers, modelled as
Nat together with an explicit overflow check at every addition and
multiplication the source performs (the spec classifies arithmetic
overflow as a fatal abort; the subtraction sites are guarded by the
source's own comparisons, so they never underflow).

Every contract entry point is a function from the witness environment
(which addresses have signed the call, the runtime check_witness
collaborator) and the current store to a TxResult: either `ok v st`
(the call returned value v with store st) or `abort e st` (the call hit a
failed assertion or panic; st is the store as written up to that point,
so that the no-mutation-before-abort behaviour of each path is visible).
-/

namespace Oep4

/-- Byte strings: storage keys and address payloads are lists of byte values. -/
abbrev Bytes := List Nat

/-- An address is its 20 raw bytes; the contract only compares addresses and
splices them into keys. -/
abbrev Address := Bytes

/-- The backing key-value store, an association list with map semantics:
`dbPut` removes any previous binding of the key, so each key occurs at most
once in any store built by the operations. -/
abbrev Store := List (Bytes × Nat)

/-- Modulus of the unsigned 128-bit integer type used for all amounts. -/
def U128MOD : Nat := 2 ^ 128

/-- Key of the total-supply scalar: the byte string "total_supply". -/
def KEY_TOTAL_SUPPLY : Bytes :=
  [116, 111, 116, 97, 108, 95, 115, 117, 112, 112, 108, 121]

/-- Balance-namespace prefix, the byte string "01". -/
def KEY_BALANCE : Bytes := [48, 49]

/-- Allowance-namespace prefix, the byte string "02". -/
def KEY_APPROVE : Bytes := [48, 50]

/-- Token supply before decimal scaling, from the source constant. -/
def TOTAL_SUPPLY : Nat := 100000000000

/-- Decimal scaling factor, from the source constant. -/
def DECIMAL_MULTIPLIER : Nat := 100000000

/-- The administrator address: the 20 bytes encoded by the base58check
string in the source. -/
def ADMIN : Address :=
  [220, 161, 48, 92, 200, 252, 43, 61, 49, 39, 162, 196, 132, 155, 67, 48,
   21, 69, 216, 78]

/-- Storage key of an address balance: balance prefix ++ address bytes. -/
def gen_balance_key (addr : Address) : Bytes := KEY_BALANCE ++ addr

/-- Storage key of an (owner, spender) allowance: allowance prefix ++ owner
bytes ++ spender bytes, in that order. -/
def gen_approve_key (owner spender : Address) : Bytes :=
  KEY_APPROVE ++ owner ++ spender

/-- Store read: value of the first (hence, for stores built by dbPut and
dbDelete, the only) binding of the key, if any. -/
def dbGet (s : Store) (k : Bytes) : Option Nat :=
  match s with
  | [] => none
  | e :: rest => if e.1 = k then some e.2 else dbGet rest k

/-- Store delete: removes every binding of the key; no-op when absent. -/
def dbDelete (s : Store) (k : Bytes) : Store :=
  match s with
  | [] => []
  | e :: rest => if e.1 = k then dbDelete rest k else e :: dbDelete rest k

/-- Store write: unconditional overwrite of the key with the value. -/
def dbPut (s : Store) (k : Bytes) (v : Nat) : Store := (k, v) :: dbDelete s k

/-- Abort causes, one per assertion or panic site of the source. -/
inductive Err where
  | alreadyInitialized
  | unauthorized
  | insufficientBalance
  | insufficientAllowance
  | batchTransferFailed
  | overflow
deriving DecidableEq, Repr

/-- Outcome of one contract invocation: a returned value or a fatal abort,
each together with the store as written when the invocation ended. -/
inductive TxResult (α : Type) where
  | ok (val : α) (st : Store)
  | abort (e : Err) (st : Store)
deriving DecidableEq, Repr

/-- Reads the stored total supply; 0 when absent. -/
def total_supply (s : Store) : Nat := (dbGet s KEY_TOTAL_SUPPLY).getD 0

/-- Reads the stored balance of an address; 0 when absent. -/
def balance_of (s : Store) (addr : Address) : Nat :=
  (dbGet s (gen_balance_key addr)).getD 0

/-- Reads the stored allowance of the ordered (owner, spender) pair; 0 when
absent. -/
def allowance (s : Store) (owner spender : Address) : Nat :=
  (dbGet s (gen_approve_key owner spender)).getD 0

/-- The initialize entry point: asserts the total supply is still unset and
the administrator witnessed the call, computes the scaled supply with a
checked multiplication, then stores the supply and credits it all to the
administrator. -/
def init (w : Address → Bool) (s : Store) : TxResult Bool :=
  if total_supply s ≠ 0 then .abort .alreadyInitialized s
  else if w ADMIN = false then .abort .unauthorized s
  else if U128MOD ≤ TOTAL_SUPPLY * DECIMAL_MULTIPLIER then .abort .overflow s
  else
    .ok true (dbPut (dbPut s KEY_TOTAL_SUPPLY (TOTAL_SUPPLY * DECIMAL_MULTIPLIER))
      (gen_balance_key ADMIN) (TOTAL_SUPPLY * DECIMAL_MULTIPLIER))

/-- The debit block of the transfer and transfer_from entry points: the
sender entry is deleted when the balance is spent exactly, else overwritten
with the reduced balance. -/
def debited (s : Store) (frm : Address) (amount : Nat) : Store :=
  if balance_of s frm = amount then dbDelete s (gen_balance_key frm)
  else dbPut s (gen_balance_key frm) (balance_of s frm - amount)

/-- The transfer entry point: asserts the sender witnessed the call; a zero
amount or insufficient sender balance returns false with no write;
otherwise the sender entry is deleted (balance spent exactly) or debited,
and the recipient is credited with the recipient balance read before the
debit, as in the source. -/
def transfer (w : Address → Bool) (s : Store) (frm toa : Address)
    (amount : Nat) : TxResult Bool :=
  if w frm = false then .abort .unauthorized s
  else if amount = 0 ∨ balance_of s frm < amount then .ok false s
  else if U128MOD ≤ balance_of s toa + amount then .abort .overflow (debited s frm amount)
  else .ok true (dbPut (debited s frm amount) (gen_balance_key toa)
    (balance_of s toa + amount))

/-- The transfer_multi entry point: runs the (from, to, amount) operations
in sequence through transfer, asserting that each returns true; a false
return aborts the batch at that point, and any abort propagates. -/
def transfer_multi (w : Address → Bool) (s : Store)
    (states : List (Address × Address × Nat)) : TxResult Bool :=
  match states with
  | [] => .ok true s
  | (f, t, a) :: rest =>
    match transfer w s f t a with
    | .ok true s1 => transfer_multi w s1 rest
    | .ok false s1 => .abort .batchTransferFailed s1
    | .abort e s1 => .abort e s1

/-- The approve entry point: asserts the owner witnessed the call and the
amount does not exceed the owner balance, then stores amount plus the
current allowance under the (owner, spender) allowance key. -/
def approve (w : Address → Bool) (s : Store) (owner spender : Address)
    (amount : Nat) : TxResult Bool :=
  if w owner = false then .abort .unauthorized s
  else if balance_of s owner < amount then .abort .insufficientBalance s
  else if U128MOD ≤ amount + allowance s owner spender then .abort .overflow s
  else
    .ok true (dbPut s (gen_approve_key owner spender)
      (amount + allowance s owner spender))

/-- The allowance-update block of the transfer_from entry point: the
allowance entry is deleted when spent exactly, else overwritten with the
reduced allowance. -/
def allowance_upd (s : Store) (frm spender : Address) (amount : Nat) : Store :=
  if amount = allowance s frm spender
  then dbDelete s (gen_approve_key frm spender)
  else dbPut s (gen_approve_key frm spender) (allowance s frm spender - amount)

/-- The transfer_from entry point: asserts the spender witnessed the call,
the amount does not exceed the (from, spender) allowance, and the amount
does not exceed the from balance; then the allowance entry is deleted
(spent exactly) or reduced, the spender balance (read after the allowance
update, as in the source) is credited, and the from entry is deleted
(spent exactly) or debited, in source order. -/
def transfer_from (w : Address → Bool) (s : Store) (spender frm : Address)
    (amount : Nat) : TxResult Bool :=
  if w spender = false then .abort .unauthorized s
  else if allowance s frm spender < amount then .abort .insufficientAllowance s
  else if balance_of s frm < amount then .abort .insufficientBalance s
  else if U128MOD ≤ balance_of (allowance_upd s frm spender amount) spender + amount
  then .abort .overflow (allowance_upd s frm spender amount)
  else if balance_of s frm = amount
  then .ok true (dbDelete (dbPut (allowance_upd s frm spender amount)
    (gen_balance_key spender)
    (balance_of (allowance_upd s frm spender amount) spender + amount))
    (gen_balance_key frm))
  else .ok true (dbPut (dbPut (allowance_upd s frm spender amount)
    (gen_balance_key spender)
    (balance_of (allowance_upd s frm spender amount) spender + amount))
    (gen_balance_key frm) (balance_of s frm - amount))

/-- Sum of the values of all balance-namespace entries of a store. -/
def sumBalances (s : Store) : Nat :=
  (s.filter (fun e => decide (e.1.take 2 = KEY_BALANCE))).foldr
    (fun e acc => e.2 + acc) 0

/-- A store has no zero-valued entry. -/
def noZeroEntries (s : Store) : Prop := ∀ e ∈ s, e.2 ≠ 0

theorem dbGet_cons (e : Bytes × Nat) (rest : Store) (k : Bytes) :
    dbGet (e :: rest) k = if e.1 = k then some e.2 else dbGet rest k := rfl

theorem dbDelete_cons (e : Bytes × Nat) (rest : Store) (k : Bytes) :
    dbDelete (e :: rest) k =
      if e.1 = k then dbDelete rest k else e :: dbDelete rest k := rfl

theorem dbGet_dbDelete_self (s : Store) (k : Bytes) :
    dbGet (dbDelete s k) k = none := by
  induction s with
  | nil => rfl
  | cons e rest ih =>
    rw [dbDelete_cons]
    by_cases h : e.1 = k
    · rw [if_pos h]; exact ih
    · rw [if_neg h, dbGet_cons, if_neg h]; exact ih

theorem dbGet_dbDelete_ne (s : Store) (k k2 : Bytes) (h : k2 ≠ k) :
    dbGet (dbDelete s k) k2 = dbGet s k2 := by
  induction s with
  | nil => rfl
  | cons e rest ih =>
    rw [dbDelete_cons]
    by_cases he : e.1 = k
    · rw [if_pos he, ih, dbGet_cons,
        if_neg (by rw [he]; exact fun hk => h hk.symm)]
    · rw [if_neg he, dbGet_cons, dbGet_cons]
      by_cases he2 : e.1 = k2
      · rw [if_pos he2, if_pos he2]
      · rw [if_neg he2, if_neg he2, ih]

theorem dbGet_dbPut_self (s : Store) (k : Bytes) (v : Nat) :
    dbGet (dbPut s k v) k = some v := by
  simp [dbPut, dbGet]

theorem dbGet_dbPut_ne (s : Store) (k k2 : Bytes) (v : Nat) (h : k2 ≠ k) :
    dbGet (dbPut s k v) k2 = dbGet s k2 := by
  have : k ≠ k2 := fun hk => h hk.symm
  simp [dbPut, dbGet, this, dbGet_dbDelete_ne s k k2 h]

theorem mem_dbDelete (s : Store) (k : Bytes) (e : Bytes × Nat)
    (h : e ∈ dbDelete s k) : e ∈ s := by
  induction s with
  | nil => exact absurd h (by simp [dbDelete])
  | cons x rest ih =>
    by_cases hx : x.1 = k
    · simp only [dbDelete, if_pos hx] at h
      exact List.mem_cons.2 (Or.inr (ih h))
    · simp only [dbDelete, if_neg hx] at h
      rcases List.mem_cons.1 h with h1 | h1
      · exact List.mem_cons.2 (Or.inl h1)
      · exact List.mem_cons.2 (Or.inr (ih h1))

theorem mem_dbPut (s : Store) (k : Bytes) (v : Nat) (e : Bytes × Nat)
    (h : e ∈ dbPut s k v) : e = (k, v) ∨ e ∈ s := by
  rcases List.mem_cons.1 h with h1 | h1
  · exact Or.inl h1
  · exact Or.inr (mem_dbDelete s k e h1)

theorem noZeroEntries_dbDelete (s : Store) (k : Bytes)
    (hs : noZeroEntries s) : noZeroEntries (dbDelete s k) :=
  fun e he => hs e (mem_dbDelete s k e he)

theorem noZeroEntries_dbPut (s : Store) (k : Bytes) (v : Nat)
    (hs : noZeroEntries s) (hv : v ≠ 0) : noZeroEntries (dbPut s k v) := by
  intro e he
  rcases mem_dbPut s k v e he with h | h
  · rw [h]; exact hv
  · exact hs e h

theorem gen_balance_key_inj (a b : Address)
    (h : gen_balance_key a = gen_balance_key b) : a = b :=
  List.append_cancel_left h

theorem gen_balance_key_ne (a b : Address) (h : a ≠ b) :
    gen_balance_key a ≠ gen_balance_key b :=
  fun hk => h (gen_balance_key_inj a b hk)

theorem balance_key_ne_approve_key (a o sp : Address) :
    gen_balance_key a ≠ gen_approve_key o sp := by
  intro h
  simp [gen_balance_key, gen_approve_key, KEY_BALANCE, KEY_APPROVE] at h

theorem balance_key_ne_total_key (a : Address) :
    gen_balance_key a ≠ KEY_TOTAL_SUPPLY := by
  intro h
  simp [gen_balance_key, KEY_BALANCE, KEY_TOTAL_SUPPLY] at h

theorem approve_key_ne_total_key (o sp : Address) :
    gen_approve_key o sp ≠ KEY_TOTAL_SUPPLY := by
  intro h
  simp [gen_approve_key, KEY_APPROVE, KEY_TOTAL_SUPPLY] at h

theorem balance_of_dbPut_approve (s : Store) (o sp x : Address) (v : Nat) :
    balance_of (dbPut s (gen_approve_key o sp) v) x = balance_of s x := by
  unfold balance_of
  rw [dbGet_dbPut_ne _ _ _ _ (balance_key_ne_approve_key x o sp)]

theorem balance_of_dbDelete_approve (s : Store) (o sp x : Address) :
    balance_of (dbDelete s (gen_approve_key o sp)) x = balance_of s x := by
  unfold balance_of
  rw [dbGet_dbDelete_ne _ _ _ (balance_key_ne_approve_key x o sp)]

theorem balance_of_allowance_upd (s : Store) (frm spender x : Address)
    (amount : Nat) :
    balance_of (allowance_upd s frm spender amount) x = balance_of s x := by
  unfold allowance_upd
  by_cases h : amount = allowance s frm spender
  · rw [if_pos h, balance_of_dbDelete_approve]
  · rw [if_neg h, balance_of_dbPut_approve]

theorem allowance_dbPut_balance (s : Store) (a o sp : Address) (v : Nat) :
    allowance (dbPut s (gen_balance_key a) v) o sp = allowance s o sp := by
  unfold allowance
  rw [dbGet_dbPut_ne _ _ _ _ (fun h => balance_key_ne_approve_key a o sp h.symm)]

theorem allowance_dbDelete_balance (s : Store) (a o sp : Address) :
    allowance (dbDelete s (gen_balance_key a)) o sp = allowance s o sp := by
  unfold allowance
  rw [dbGet_dbDelete_ne _ _ _ (fun h => balance_key_ne_approve_key a o sp h.symm)]

theorem noZeroEntries_debited (s : Store) (frm : Address) (amount : Nat)
    (h : amount ≤ balance_of s frm) (hs : noZeroEntries s) :
    noZeroEntries (debited s frm amount) := by
  unfold debited
  by_cases hd : balance_of s frm = amount
  · rw [if_pos hd]; exact noZeroEntries_dbDelete _ _ hs
  · rw [if_neg hd]; exact noZeroEntries_dbPut _ _ _ hs (by omega)

theorem noZeroEntries_allowance_upd (s : Store) (frm spender : Address)
    (amount : Nat) (h : amount ≤ allowance s frm spender)
    (hs : noZeroEntries s) :
    noZeroEntries (allowance_upd s frm spender amount) := by
  unfold allowance_upd
  by_cases hd : amount = allowance s frm spender
  · rw [if_pos hd]; exact noZeroEntries_dbDelete _ _ hs
  · rw [if_neg hd]; exact noZeroEntries_dbPut _ _ _ hs (by omega)

theorem init_preserves_noZero (w : Address → Bool) (s : Store) (b : Bool)
    (s2 : Store) (h : init w s = .ok b s2) (hs : noZeroEntries s) :
    noZeroEntries s2 := by
  unfold init at h
  split_ifs at h with h1 h2 h3 <;> simp at h
  obtain ⟨hb, hst⟩ := h
  subst hst
  exact noZeroEntries_dbPut _ _ _
    (noZeroEntries_dbPut _ _ _ hs (by decide)) (by decide)

theorem transfer_preserves_noZero (w : Address → Bool) (s : Store)
    (frm toa : Address) (amount : Nat) (b : Bool) (s2 : Store)
    (h : transfer w s frm toa amount = .ok b s2) (hs : noZeroEntries s) :
    noZeroEntries s2 := by
  unfold transfer at h
  split_ifs at h with h1 h2 h3 <;> simp at h
  · obtain ⟨hb, hst⟩ := h
    subst hst
    exact hs
  · obtain ⟨hb, hst⟩ := h
    subst hst
    push_neg at h2
    obtain ⟨h2a, h2b⟩ := h2
    exact noZeroEntries_dbPut _ _ _
      (noZeroEntries_debited s frm amount h2b hs) (by omega)

theorem transfer_multi_preserves_noZero (w : Address → Bool) :
    ∀ (states : List (Address × Address × Nat)) (s : Store) (b : Bool)
      (s2 : Store), transfer_multi w s states = .ok b s2 →
      noZeroEntries s → noZeroEntries s2 := by
  intro states
  induction states with
  | nil =>
    intro s b s2 h hs
    unfold transfer_multi at h
    injection h with hb hst
    subst hst; exact hs
  | cons head tail ih =>
    intro s b s2 h hs
    obtain ⟨f, t, a⟩ := head
    unfold transfer_multi at h
    cases htr : transfer w s f t a with
    | ok bv s1 =>
      rw [htr] at h
      cases bv with
      | true =>
        exact ih s1 b s2 h (transfer_preserves_noZero w s f t a true s1 htr hs)
      | false => simp at h
    | abort e s1 =>
      rw [htr] at h
      simp at h

theorem approve_preserves_noZero (w : Address → Bool) (s : Store)
    (owner spender : Address) (amount : Nat) (b : Bool) (s2 : Store)
    (ha : 0 < amount) (h : approve w s owner spender amount = .ok b s2)
    (hs : noZeroEntries s) : noZeroEntries s2 := by
  unfold approve at h
  split_ifs at h with h1 h2 h3 <;> simp at h
  obtain ⟨hb, hst⟩ := h
  subst hst
  exact noZeroEntries_dbPut _ _ _ hs (by omega)

theorem transfer_from_preserves_noZero (w : Address → Bool) (s : Store)
    (spender frm : Address) (amount : Nat) (b : Bool) (s2 : Store)
    (ha : 0 < amount) (h : transfer_from w s spender frm amount = .ok b s2)
    (hs : noZeroEntries s) : noZeroEntries s2 := by
  unfold transfer_from at h
  split_ifs at h with h1 h2 h3 h4 h5 <;> simp at h
  · obtain ⟨hb, hst⟩ := h
    subst hst
    exact noZeroEntries_dbDelete _ _
      (noZeroEntries_dbPut _ _ _
        (noZeroEntries_allowance_upd s frm spender amount (by omega) hs)
        (by omega))
  · obtain ⟨hb, hst⟩ := h
    subst hst
    exact noZeroEntries_dbPut _ _ _
      (noZeroEntries_dbPut _ _ _
        (noZeroEntries_allowance_upd s frm spender amount (by omega) hs)
        (by omega))
      (by omega)

/-- Stores reachable from the empty genesis store by successful contract
invocations in which every approve and every transfer_from amount is
positive. -/
inductive ReachablePos : Store → Prop where
  | genesis : ReachablePos []
  | step_init (w : Address → Bool) (s : Store) (b : Bool) (s2 : Store) :
      ReachablePos s → init w s = .ok b s2 → ReachablePos s2
  | step_transfer (w : Address → Bool) (s : Store) (frm toa : Address)
      (amount : Nat) (b : Bool) (s2 : Store) :
      ReachablePos s → transfer w s frm toa amount = .ok b s2 →
      ReachablePos s2
  | step_transfer_multi (w : Address → Bool) (s : Store)
      (states : List (Address × Address × Nat)) (b : Bool) (s2 : Store) :
      ReachablePos s → transfer_multi w s states = .ok b s2 →
      ReachablePos s2
  | step_approve (w : Address → Bool) (s : Store) (owner spender : Address)
      (amount : Nat) (b : Bool) (s2 : Store) :
      ReachablePos s → 0 < amount →
      approve w s owner spender amount = .ok b s2 → ReachablePos s2
  | step_transfer_from (w : Address → Bool) (s : Store)
      (spender frm : Address) (amount : Nat) (b : Bool) (s2 : Store) :
      ReachablePos s → 0 < amount →
      transfer_from w s spender frm amount = .ok b s2 → ReachablePos s2

theorem reachablePos_noZeroEntries (s : Store) (h : ReachablePos s) :
    noZeroEntries s := by
  induction h with
  | genesis => intro e he; simp at he
  | step_init w s b s2 _ heq ih =>
    exact init_preserves_noZero w s b s2 heq ih
  | step_transfer w s frm toa amount b s2 _ heq ih =>
    exact transfer_preserves_noZero w s frm toa amount b s2 heq ih
  | step_transfer_multi w s states b s2 _ heq ih =>
    exact transfer_multi_preserves_noZero w states s b s2 heq ih
  | step_approve w s owner spender amount b s2 _ ha heq ih =>
    exact approve_preserves_noZero w s owner spender amount b s2 ha heq ih
  | step_transfer_from w s spender frm amount b s2 _ ha heq ih =>
    exact transfer_from_preserves_noZero w s spender frm amount b s2 ha heq ih

/-- The scaled supply written at initialization. -/
def INIT_TOTAL : Nat := TOTAL_SUPPLY * DECIMAL_MULTIPLIER

/-- A concrete 20-byte test address. -/
def A1 : Address := List.replicate 20 1

/-- A second concrete 20-byte test address. -/
def A2 : Address := List.replicate 20 2

/-- Witness environment in which exactly the administrator signed the call. -/
def wAdmin : Address → Bool := fun a => decide (a = ADMIN)

/-- Witness environment in which exactly A1 signed the call. -/
def wA1 : Address → Bool := fun a => decide (a = A1)

/-- Witness environment in which exactly A2 signed the call. -/
def wA2 : Address → Bool := fun a => decide (a = A2)

/-- The store produced by a successful initialization from genesis. -/
def initStore : Store :=
  [(gen_balance_key ADMIN, INIT_TOTAL), (KEY_TOTAL_SUPPLY, INIT_TOTAL)]

/-- The store after initialization followed by a full self-transfer of the
administrator balance: the balance entry has doubled. -/
def doubledStore : Store :=
  [(gen_balance_key ADMIN, 2 * INIT_TOTAL), (KEY_TOTAL_SUPPLY, INIT_TOTAL)]

/-- C1: the claimed conservation invariant, sum of stored balances equals
the stored total supply in every reachable state, fails on the code: from
genesis, a successful initialization (sum equals supply, and the genesis
sum is 0) followed by a successful authorized full self-transfer of the
administrator yields a state whose stored balances sum to twice the
stored total supply, because transfer credits the recipient with a
recipient balance read before the sender debit. -/
theorem c1_supply_conservation_fails_after_self_transfer :
    sumBalances ([] : Store) = 0 ∧
    init wAdmin [] = .ok true initStore ∧
    sumBalances initStore = total_supply initStore ∧
    transfer wAdmin initStore ADMIN ADMIN (total_supply initStore) =
      .ok true doubledStore ∧
    sumBalances doubledStore = 2 * total_supply doubledStore := by
  refine ⟨rfl, by decide, by decide, by decide, by decide⟩

/-- C2: a full self-transfer by an authorized address with a non-zero
balance returns true but does not leave the balance unchanged: the code
doubles the balance (the recipient credit uses the balance read before the
sender debit), refuting the claimed net-unchanged behaviour. -/
theorem c2_full_self_transfer_doubles_balance :
    balance_of [(gen_balance_key A1, 100)] A1 = 100 ∧
    transfer wA1 [(gen_balance_key A1, 100)] A1 A1 100 =
      .ok true [(gen_balance_key A1, 200)] ∧
    balance_of [(gen_balance_key A1, 200)] A1 = 200 := by
  refine ⟨by decide, by decide, by decide⟩

/-- The store after initialization followed by a zero-amount approve from
the administrator to A1: it holds a zero-valued allowance entry. -/
def zeroAllowanceStore : Store := (gen_approve_key ADMIN A1, 0) :: initStore

/-- C3 counterexample: the claimed no-zero-entry invariant fails on the
code: from genesis, a successful initialization followed by a successful
authorized approve of amount 0 (which the code accepts, since 0 does not
exceed the owner balance) stores the value 0 under the allowance key. -/
theorem c3_zero_allowance_entry_reachable :
    init wAdmin [] = .ok true initStore ∧
    approve wAdmin initStore ADMIN A1 0 = .ok true zeroAllowanceStore ∧
    dbGet zeroAllowanceStore (gen_approve_key ADMIN A1) = some 0 := by
  refine ⟨by decide, by decide, by decide⟩

/-- C3 amended: in every state reachable by successful operations in which
every approve and every transfer_from amount is positive, no stored
balance-namespace or allowance-namespace entry has the value 0. -/
theorem c3_no_zero_entries_for_positive_amounts (s : Store)
    (h : ReachablePos s) :
    ∀ e ∈ s, (e.1.take 2 = KEY_BALANCE ∨ e.1.take 2 = KEY_APPROVE) →
      e.2 ≠ 0 :=
  fun e he _ => reachablePos_noZeroEntries s h e he

/-- Witness for the amended C3 theorem: the administrator balance entry of
the reachable post-initialization store is non-zero. -/
theorem c3_no_zero_entries_witness :
    ((gen_balance_key ADMIN, INIT_TOTAL) : Bytes × Nat).2 ≠ 0 :=
  c3_no_zero_entries_for_positive_amounts initStore
    (ReachablePos.step_init wAdmin [] true initStore ReachablePos.genesis
      (by decide))
    (gen_balance_key ADMIN, INIT_TOTAL) (by decide) (Or.inl (by decide))

/-- C4: once the total supply is present (in particular, in the store left
by a successful initialization), a second initialization aborts fatally
with AlreadyInitialized and leaves the store exactly as it was. -/
theorem c4_second_init_aborts_unchanged (w w2 : Address → Bool) (s : Store) :
    (total_supply s ≠ 0 → init w s = .abort .alreadyInitialized s) ∧
    (∀ b s2, init w s = .ok b s2 →
      init w2 s2 = .abort .alreadyInitialized s2) := by
  constructor
  · intro h
    unfold init
    rw [if_pos h]
  · intro b s2 h
    unfold init at h
    split_ifs at h with h1 h2 h3 <;> simp at h
    obtain ⟨hb, hst⟩ := h
    subst hst
    have hts : total_supply (dbPut (dbPut s KEY_TOTAL_SUPPLY
        (TOTAL_SUPPLY * DECIMAL_MULTIPLIER)) (gen_balance_key ADMIN)
        (TOTAL_SUPPLY * DECIMAL_MULTIPLIER)) ≠ 0 := by
      unfold total_supply
      rw [dbGet_dbPut_ne _ _ _ _
        (fun hk => balance_key_ne_total_key ADMIN hk.symm),
        dbGet_dbPut_self]
      decide
    unfold init
    rw [if_pos hts]

/-- Witness for C4: the concrete double initialization from genesis. -/
theorem c4_second_init_witness :
    init wAdmin initStore = .abort .alreadyInitialized initStore :=
  (c4_second_init_aborts_unchanged wAdmin wAdmin []).2 true initStore
    (by decide)

theorem transfer_ok_false_char (w : Address → Bool) (s : Store)
    (frm toa : Address) (amount : Nat) (s2 : Store)
    (h : transfer w s frm toa amount = .ok false s2) :
    w frm = true ∧ (amount = 0 ∨ balance_of s frm < amount) ∧ s2 = s := by
  unfold transfer at h
  split_ifs at h with h1 h2 h3 <;> simp at h
  exact ⟨by simpa using h1, h2, h.symm⟩

/-- C5: with the sender authorized, transfer returns false exactly when the
amount is 0 or exceeds the sender balance, and in that case the store is
untouched; an unauthorized sender aborts fatally before the policy check,
regardless of amount or balances. -/
theorem c5_transfer_false_path (w : Address → Bool) (s : Store)
    (frm toa : Address) (amount : Nat) :
    (w frm = false → transfer w s frm toa amount = .abort .unauthorized s) ∧
    (w frm = true → (amount = 0 ∨ balance_of s frm < amount) →
      transfer w s frm toa amount = .ok false s) ∧
    (∀ s2, transfer w s frm toa amount = .ok false s2 →
      (amount = 0 ∨ balance_of s frm < amount) ∧ s2 = s) := by
  refine ⟨?_, ?_, ?_⟩
  · intro h
    unfold transfer
    rw [if_pos h]
  · intro hw hp
    unfold transfer
    rw [if_neg (by simp [hw]), if_pos hp]
  · intro s2 h
    obtain ⟨_, hp, hs⟩ := transfer_ok_false_char w s frm toa amount s2 h
    exact ⟨hp, hs⟩

/-- Witness for C5: an authorized transfer whose amount exceeds the sender
balance returns false and leaves the store unchanged. -/
theorem c5_transfer_false_witness :
    transfer wA1 [(gen_balance_key A1, 100)] A1 A2 200 =
      .ok false [(gen_balance_key A1, 100)] :=
  (c5_transfer_false_path wA1 [(gen_balance_key A1, 100)] A1 A2 200).2.1
    (by decide) (by decide)

theorem approve_ok_store (w : Address → Bool) (s : Store)
    (owner spender : Address) (amount : Nat) (b : Bool) (s2 : Store)
    (h : approve w s owner spender amount = .ok b s2) :
    s2 = dbPut s (gen_approve_key owner spender)
      (amount + allowance s owner spender) := by
  unfold approve at h
  split_ifs at h with h1 h2 h3 <;> simp at h
  exact h.2.symm

/-- C6: two successive successful approve calls for the same (owner,
spender) pair accumulate: the resulting allowance is the initial allowance
plus both amounts, hence exactly the sum of the two amounts whenever the
pair started with no allowance. -/
theorem c6_approve_is_additive (w w2 : Address → Bool) (s s1 s2 : Store)
    (owner spender : Address) (x y : Nat)
    (h1 : approve w s owner spender x = .ok true s1)
    (h2 : approve w2 s1 owner spender y = .ok true s2) :
    allowance s2 owner spender = allowance s owner spender + x + y ∧
    (allowance s owner spender = 0 →
      allowance s2 owner spender = x + y) := by
  have e1 := approve_ok_store w s owner spender x true s1 h1
  have e2 := approve_ok_store w2 s1 owner spender y true s2 h2
  have a1 : allowance s1 owner spender = x + allowance s owner spender := by
    rw [e1]
    simp [allowance, dbGet_dbPut_self]
  have a2 : allowance s2 owner spender = y + allowance s1 owner spender := by
    rw [e2]
    simp [allowance, dbGet_dbPut_self]
  constructor
  · rw [a2, a1]
    omega
  · intro h0
    rw [a2, a1, h0]
    omega

/-- The store after initialization and an approve of 5 from the
administrator to A1. -/
def c6MidStore : Store := (gen_approve_key ADMIN A1, 5) :: initStore

/-- The store after a further approve of 7 from the administrator to A1. -/
def c6EndStore : Store := (gen_approve_key ADMIN A1, 12) :: initStore

/-- Witness for C6: approving 5 and then 7 from a zero initial allowance
yields allowance 12. -/
theorem c6_approve_additive_witness :
    allowance c6EndStore ADMIN A1 = allowance initStore ADMIN A1 + 5 + 7 ∧
    (allowance initStore ADMIN A1 = 0 →
      allowance c6EndStore ADMIN A1 = 5 + 7) :=
  c6_approve_is_additive wAdmin wAdmin initStore c6MidStore c6EndStore ADMIN
    A1 5 7 (by decide) (by decide)

theorem balance_of_dbPut_self (s : Store) (a : Address) (v : Nat) :
    balance_of (dbPut s (gen_balance_key a) v) a = v := by
  unfold balance_of
  rw [dbGet_dbPut_self]
  rfl

theorem balance_of_dbPut_other (s : Store) (a x : Address) (v : Nat)
    (h : x ≠ a) :
    balance_of (dbPut s (gen_balance_key a) v) x = balance_of s x := by
  unfold balance_of
  rw [dbGet_dbPut_ne _ _ _ _ (gen_balance_key_ne x a h)]

theorem balance_of_dbDelete_bal_self (s : Store) (a : Address) :
    balance_of (dbDelete s (gen_balance_key a)) a = 0 := by
  unfold balance_of
  rw [dbGet_dbDelete_self]
  rfl

theorem balance_of_dbDelete_bal_other (s : Store) (a x : Address)
    (h : x ≠ a) :
    balance_of (dbDelete s (gen_balance_key a)) x = balance_of s x := by
  unfold balance_of
  rw [dbGet_dbDelete_ne _ _ _ (gen_balance_key_ne x a h)]

theorem allowance_allowance_upd_self (s : Store) (frm spender : Address)
    (amount : Nat) :
    allowance (allowance_upd s frm spender amount) frm spender =
      allowance s frm spender - amount := by
  unfold allowance_upd
  by_cases hd : amount = allowance s frm spender
  · rw [if_pos hd]
    simp [allowance, dbGet_dbDelete_self, hd]
  · rw [if_neg hd]
    simp [allowance, dbGet_dbPut_self]

theorem dbGet_allowance_upd_exact (s : Store) (frm spender : Address)
    (amount : Nat) (h : amount = allowance s frm spender) :
    dbGet (allowance_upd s frm spender amount)
      (gen_approve_key frm spender) = none := by
  unfold allowance_upd
  rw [if_pos h, dbGet_dbDelete_self]

/-- A concrete store in which A1 holds balance 100 and has granted itself
allowance 50. -/
def c7Store : Store :=
  [(gen_balance_key A1, 100), (gen_approve_key A1 A1, 50)]

/-- C7 counterexample: a successful self transfer_from (spender equal to
from) does not leave the balance at its credited-minus-debited net value:
with balance 100 and self-allowance 50, transferring 50 from A1 to itself
succeeds and leaves A1 with balance 50 instead of the claimed unchanged
100, because the from-debit overwrites the spender-credit of the same key. -/
theorem c7_self_transfer_from_loses_tokens :
    transfer_from wA1 c7Store A1 A1 50 =
      .ok true [(gen_balance_key A1, 50)] ∧
    balance_of c7Store A1 = 100 ∧
    balance_of [(gen_balance_key A1, 50)] A1 = 50 := by
  refine ⟨by decide, by decide, by decide⟩

/-- C7 amended: transfer_from aborts fatally, with the store untouched,
when the spender is unauthorized, or the amount exceeds the (from,
spender) allowance, or the amount exceeds the from balance; it never
returns false; and on success, when spender and from are distinct
addresses (and the spender credit does not overflow), the allowance is
reduced by the amount (its entry deleted when spent exactly), the spender
balance is credited by the amount, and the from balance is debited by the
amount (its entry deleted when spent exactly). For spender equal to from
the code instead nets a debit, per the counterexample. -/
theorem c7_transfer_from_behaviour (w : Address → Bool) (s : Store)
    (spender frm : Address) (amount : Nat) :
    (w spender = false →
      transfer_from w s spender frm amount = .abort .unauthorized s) ∧
    (w spender = true → allowance s frm spender < amount →
      transfer_from w s spender frm amount =
        .abort .insufficientAllowance s) ∧
    (w spender = true → amount ≤ allowance s frm spender →
      balance_of s frm < amount →
      transfer_from w s spender frm amount = .abort .insufficientBalance s) ∧
    (∀ b s2, transfer_from w s spender frm amount = .ok b s2 → b = true) ∧
    (spender ≠ frm → w spender = true → amount ≤ allowance s frm spender →
      amount ≤ balance_of s frm →
      balance_of s spender + amount < U128MOD →
      ∃ s2, transfer_from w s spender frm amount = .ok true s2 ∧
        allowance s2 frm spender = allowance s frm spender - amount ∧
        (amount = allowance s frm spender →
          dbGet s2 (gen_approve_key frm spender) = none) ∧
        balance_of s2 spender = balance_of s spender + amount ∧
        balance_of s2 frm = balance_of s frm - amount ∧
        (amount = balance_of s frm →
          dbGet s2 (gen_balance_key frm) = none)) := by
  refine ⟨?_, ?_, ?_, ?_, ?_⟩
  · intro h
    unfold transfer_from
    rw [if_pos h]
  · intro hw hal
    unfold transfer_from
    rw [if_neg (by simp [hw]), if_pos hal]
  · intro hw hal hbal
    unfold transfer_from
    rw [if_neg (by simp [hw]), if_neg (by omega), if_pos hbal]
  · intro b s2 h
    unfold transfer_from at h
    split_ifs at h with h1 h2 h3 h4 h5 <;> simp at h
    · exact h.1
    · exact h.1
  · intro hsp hw hal hbal hov
    have habk : ∀ x : Address,
        gen_approve_key frm spender ≠ gen_balance_key x :=
      fun x hk => balance_key_ne_approve_key x frm spender hk.symm
    have hc1 : ¬ (w spender = false) := by simp [hw]
    have hc2 : ¬ (allowance s frm spender < amount) := by omega
    have hc3 : ¬ (balance_of s frm < amount) := by omega
    have hc4 : ¬ (U128MOD ≤
        balance_of (allowance_upd s frm spender amount) spender + amount) := by
      rw [balance_of_allowance_upd]
      omega
    unfold transfer_from
    rw [if_neg hc1, if_neg hc2, if_neg hc3, if_neg hc4]
    by_cases hfull : balance_of s frm = amount
    · rw [if_pos hfull]
      refine ⟨_, rfl, ?_, ?_, ?_, ?_, ?_⟩
      · rw [allowance_dbDelete_balance, allowance_dbPut_balance,
          allowance_allowance_upd_self]
      · intro hex
        rw [dbGet_dbDelete_ne _ _ _ (habk frm),
          dbGet_dbPut_ne _ _ _ _ (habk spender),
          dbGet_allowance_upd_exact s frm spender amount hex]
      · rw [balance_of_dbDelete_bal_other _ _ _ hsp, balance_of_dbPut_self,
          balance_of_allowance_upd]
      · rw [balance_of_dbDelete_bal_self]
        omega
      · intro _
        rw [dbGet_dbDelete_self]
    · rw [if_neg hfull]
      refine ⟨_, rfl, ?_, ?_, ?_, ?_, ?_⟩
      · rw [allowance_dbPut_balance, allowance_dbPut_balance,
          allowance_allowance_upd_self]
      · intro hex
        rw [dbGet_dbPut_ne _ _ _ _ (habk frm),
          dbGet_dbPut_ne _ _ _ _ (habk spender),
          dbGet_allowance_upd_exact s frm spender amount hex]
      · rw [balance_of_dbPut_other _ _ _ _ hsp, balance_of_dbPut_self,
          balance_of_allowance_upd]
      · rw [balance_of_dbPut_self]
      · intro hh
        exact absurd hh.symm hfull

/-- Witness for the amended C7 theorem: a concrete delegated transfer
between distinct addresses. -/
theorem c7_transfer_from_witness :
    ∃ s2, transfer_from wA2 [(gen_balance_key A1, 100),
        (gen_approve_key A1 A2, 50)] A2 A1 50 = .ok true s2 ∧
      allowance s2 A1 A2 = allowance [(gen_balance_key A1, 100),
        (gen_approve_key A1 A2, 50)] A1 A2 - 50 ∧
      (50 = allowance [(gen_balance_key A1, 100),
        (gen_approve_key A1 A2, 50)] A1 A2 →
        dbGet s2 (gen_approve_key A1 A2) = none) ∧
      balance_of s2 A2 = balance_of [(gen_balance_key A1, 100),
        (gen_approve_key A1 A2, 50)] A2 + 50 ∧
      balance_of s2 A1 = balance_of [(gen_balance_key A1, 100),
        (gen_approve_key A1 A2, 50)] A1 - 50 ∧
      (50 = balance_of [(gen_balance_key A1, 100),
        (gen_approve_key A1 A2, 50)] A1 →
        dbGet s2 (gen_balance_key A1) = none) :=
  (c7_transfer_from_behaviour wA2 [(gen_balance_key A1, 100),
      (gen_approve_key A1 A2, 50)] A2 A1 50).2.2.2.2
    (by decide) (by decide) (by decide) (by decide) (by decide)

theorem transfer_multi_ok_true (w : Address → Bool) :
    ∀ (states : List (Address × Address × Nat)) (s : Store) (b : Bool)
      (s2 : Store), transfer_multi w s states = .ok b s2 → b = true := by
  intro states
  induction states with
  | nil =>
    intro s b s2 h
    unfold transfer_multi at h
    injection h with hb _
    exact hb.symm
  | cons head tail ih =>
    intro s b s2 h
    obtain ⟨f, t, a⟩ := head
    unfold transfer_multi at h
    cases htr : transfer w s f t a with
    | ok bv s1 =>
      rw [htr] at h
      cases bv with
      | true => exact ih s1 b s2 h
      | false => simp at h
    | abort e s1 =>
      rw [htr] at h
      simp at h

/-- C8: transfer_multi applies its operations strictly in sequence through
transfer: the empty batch returns true with the store unchanged; a head
operation returning true continues the batch from the updated store; a
head operation returning false (which leaves the store unchanged) aborts
the whole batch fatally at the state accumulated so far, so no effect of
the failing or of any later operation occurs while earlier effects remain;
a fatal head operation propagates its abort; and a non-aborting batch
always returns true. -/
theorem c8_transfer_multi_sequencing (w : Address → Bool) :
    (∀ s, transfer_multi w s [] = .ok true s) ∧
    (∀ (s : Store) (frm toa : Address) (amount : Nat)
      (rest : List (Address × Address × Nat)),
      (∀ s1, transfer w s frm toa amount = .ok true s1 →
        transfer_multi w s ((frm, toa, amount) :: rest) =
          transfer_multi w s1 rest) ∧
      (∀ s1, transfer w s frm toa amount = .ok false s1 →
        s1 = s ∧ transfer_multi w s ((frm, toa, amount) :: rest) =
          .abort .batchTransferFailed s) ∧
      (∀ e s1, transfer w s frm toa amount = .abort e s1 →
        transfer_multi w s ((frm, toa, amount) :: rest) = .abort e s1)) ∧
    (∀ states s b s2, transfer_multi w s states = .ok b s2 → b = true) := by
  refine ⟨fun s => rfl, ?_, fun states s b s2 h =>
    transfer_multi_ok_true w states s b s2 h⟩
  intro s frm toa amount rest
  have heq : transfer_multi w s ((frm, toa, amount) :: rest) =
      match transfer w s frm toa amount with
      | .ok true s1 => transfer_multi w s1 rest
      | .ok false s1 => .abort .batchTransferFailed s1
      | .abort e s1 => .abort e s1 := rfl
  refine ⟨?_, ?_, ?_⟩
  · intro s1 htr
    rw [heq, htr]
  · intro s1 htr
    have hch := transfer_ok_false_char w s frm toa amount s1 htr
    refine ⟨hch.2.2, ?_⟩
    rw [heq, htr, hch.2.2]
  · intro e s1 htr
    rw [heq, htr]

/-- The store after initialization and a transfer of 100 from the
administrator to A1. -/
def c8Step1Store : Store :=
  [(gen_balance_key A1, 100), (gen_balance_key ADMIN, INIT_TOTAL - 100),
   (KEY_TOTAL_SUPPLY, INIT_TOTAL)]

/-- Witness for C8: a concrete singleton batch steps through its one
successful transfer. -/
theorem c8_transfer_multi_witness :
    transfer_multi wAdmin initStore ((ADMIN, A1, 100) :: []) =
      transfer_multi wAdmin c8Step1Store [] :=
  ((c8_transfer_multi_sequencing wAdmin).2.1 initStore ADMIN A1 100 []).1
    c8Step1Store (by decide)

/-- C9: key derivation is collision-free: balance keys are injective in
the address; allowance keys are injective in the ordered (owner, spender)
pair of 20-byte addresses, so swapping distinct owner and spender changes
the key; and the balance, allowance and total-supply namespaces are
pairwise disjoint. -/
theorem c9_key_derivation_collision_free :
    (∀ a b : Address, gen_balance_key a = gen_balance_key b → a = b) ∧
    (∀ o sp o2 sp2 : Address, o.length = 20 → o2.length = 20 →
      gen_approve_key o sp = gen_approve_key o2 sp2 → o = o2 ∧ sp = sp2) ∧
    (∀ o sp : Address, o.length = 20 → sp.length = 20 → o ≠ sp →
      gen_approve_key o sp ≠ gen_approve_key sp o) ∧
    (∀ a o sp : Address, gen_balance_key a ≠ gen_approve_key o sp) ∧
    (∀ a : Address, gen_balance_key a ≠ KEY_TOTAL_SUPPLY) ∧
    (∀ o sp : Address, gen_approve_key o sp ≠ KEY_TOTAL_SUPPLY) := by
  refine ⟨fun a b h => gen_balance_key_inj a b h, ?_, ?_,
    fun a o sp => balance_key_ne_approve_key a o sp,
    fun a => balance_key_ne_total_key a,
    fun o sp => approve_key_ne_total_key o sp⟩
  · intro o sp o2 sp2 ho ho2 h
    unfold gen_approve_key at h
    rw [List.append_assoc, List.append_assoc] at h
    exact List.append_inj (List.append_cancel_left h) (by rw [ho, ho2])
  · intro o sp ho hsp hne h
    unfold gen_approve_key at h
    rw [List.append_assoc, List.append_assoc] at h
    exact hne
      (List.append_inj (List.append_cancel_left h) (by rw [ho, hsp])).1

/-- Witness for C9: the two orders of a distinct address pair give
different allowance keys. -/
theorem c9_key_witness : gen_approve_key A1 A2 ≠ gen_approve_key A2 A1 :=
  c9_key_derivation_collision_free.2.2.1 A1 A2 (by decide) (by decide)
    (by decide)

/-- The store after initialization and one full-balance approve from the
administrator to A1. -/
def c10MidStore : Store :=
  (gen_approve_key ADMIN A1, INIT_TOTAL) :: initStore

/-- The store after a second full-balance approve from the administrator
to A1. -/
def c10EndStore : Store :=
  (gen_approve_key ADMIN A1, 2 * INIT_TOTAL) :: initStore

/-- C10: approve checks only the newly approved amount against the owner
balance, so from the reachable post-initialization state two successful
approve calls of the full administrator balance accumulate to an allowance
of twice that balance, exceeding it. -/
theorem c10_allowance_unbounded_by_balance :
    init wAdmin [] = .ok true initStore ∧
    balance_of initStore ADMIN = INIT_TOTAL ∧
    approve wAdmin initStore ADMIN A1 INIT_TOTAL = .ok true c10MidStore ∧
    approve wAdmin c10MidStore ADMIN A1 INIT_TOTAL = .ok true c10EndStore ∧
    allowance c10EndStore ADMIN A1 = 2 * INIT_TOTAL ∧
    balance_of c10EndStore ADMIN = INIT_TOTAL ∧
    balance_of c10EndStore ADMIN < allowance c10EndStore ADMIN A1 := by
  exact ⟨by decide, by decide, by decide, by decide, by decide, by decide,
    by decide⟩

end Oep4
